import Mathlib

/-!
Verification of the real-time task-orchestration and broadcast subsystem of
the rehui-car-adviser backend.

The definitions below are a shallow embedding of the Python sources:

* `app/models/schemas.py`          — `WebSocketMessageType`, `WebSocketMessage`,
                                      `WebSocketConnectionInfo`
* `app/utils/websocket/connection_manager.py`   — `ConnectionManager`
* `app/utils/websocket/realtime_broadcaster.py` — `RealtimeBroadcaster`
* `app/utils/websocket/message_handler.py`      — `MessageHandler`
* `app/services/core/realtime_service.py`       — `RealtimeService`

Python dictionaries are modelled as association lists with unique keys
(`dictLookup` / `dictInsert` / `dictErase`), Python sets of client ids as
duplicate-free lists (`setAdd` / `setDiscard`), `datetime.now()` as an
explicit integer timestamp parameter (seconds), and the float progress
percentages (all of which are whole numbers in the source: 10.0 … 100.0)
as naturals.  Socket writes are modelled by an outcome oracle
(`SendOutcome`): a write either succeeds, raises `WebSocketDisconnect`, or
raises some other exception — exactly the three branches of
`ConnectionManager.send_message`.
-/

namespace Rehui

/-- Message kinds: the `WebSocketMessageType` enum of `schemas.py` (17 values). -/
inductive MsgType where
  | connect
  | disconnect
  | ping
  | pong
  | searchStart
  | searchProgress
  | searchResults
  | searchError
  | searchComplete
  | conversationMessage
  | conversationResponse
  | taskStart
  | taskProgress
  | taskComplete
  | taskError
  | systemNotification
  | errorKind
deriving DecidableEq, Repr

/-- Wire-string decoding of a `type` field: `WebSocketMessageType(message_type)`
in `MessageHandler.handle_message`; `none` models the `ValueError` branch. -/
def parseMsgType (s : String) : Option MsgType :=
  if s = "connect" then some MsgType.connect
  else if s = "disconnect" then some MsgType.disconnect
  else if s = "ping" then some MsgType.ping
  else if s = "pong" then some MsgType.pong
  else if s = "search_start" then some MsgType.searchStart
  else if s = "search_progress" then some MsgType.searchProgress
  else if s = "search_results" then some MsgType.searchResults
  else if s = "search_error" then some MsgType.searchError
  else if s = "search_complete" then some MsgType.searchComplete
  else if s = "conversation_message" then some MsgType.conversationMessage
  else if s = "conversation_response" then some MsgType.conversationResponse
  else if s = "task_start" then some MsgType.taskStart
  else if s = "task_progress" then some MsgType.taskProgress
  else if s = "task_complete" then some MsgType.taskComplete
  else if s = "task_error" then some MsgType.taskError
  else if s = "system_notification" then some MsgType.systemNotification
  else if s = "error" then some MsgType.errorKind
  else none

/-- Wire envelope (`WebSocketMessage` in `schemas.py`), restricted to the
fields the dispatcher inspects: the kind and the `task_id` / `session_id`
entries of the optional `data` payload (`none` models a missing `data`
dict or a missing key). -/
structure WSMessage where
  type : MsgType
  dataTaskId : Option String := none
  dataSessionId : Option String := none
deriving DecidableEq, Repr

/-- Connection record (`WebSocketConnectionInfo` in `schemas.py`). -/
structure ConnInfo where
  clientId : String
  connectedAt : Int
  lastPing : Option Int := none
  isActive : Bool := true
deriving DecidableEq, Repr

/-- Lookup in a Python dict modelled as an association list (first match). -/
def dictLookup {α : Type} (k : String) : List (String × α) → Option α
  | [] => none
  | (k1, v) :: rest => if k1 = k then some v else dictLookup k rest

/-- Assignment `d[k] = v` on a Python dict: replace the first binding of `k`
in place, or append a new binding. -/
def dictInsert {α : Type} (k : String) (v : α) : List (String × α) → List (String × α)
  | [] => [(k, v)]
  | (k1, v1) :: rest =>
    if k1 = k then (k, v) :: rest else (k1, v1) :: dictInsert k v rest

/-- Deletion `del d[k]` on a Python dict (keys are unique, so removing every
binding of the key equals deleting its single binding). -/
def dictErase {α : Type} (k : String) : List (String × α) → List (String × α)
  | [] => []
  | (k1, v) :: rest => if k1 = k then dictErase k rest else (k1, v) :: dictErase k rest

/-- Python `set.add` on a set of client ids kept as a duplicate-free list. -/
def setAdd (c : String) (s : List String) : List String :=
  if c ∈ s then s else s ++ [c]

/-- Python `set.discard` on a set of client ids. -/
def setDiscard (c : String) : List String → List String
  | [] => []
  | x :: rest => if x = c then setDiscard c rest else x :: setDiscard c rest

/-- State of `ConnectionManager` (`connection_manager.py`): the live-socket
dict (modelled by its key list — the socket handles are opaque), the
connection-info dict, and the two subscription indices. -/
structure Registry where
  activeConnections : List String
  connectionInfo : List (String × ConnInfo)
  taskSubscriptions : List (String × List String)
  sessionSubscriptions : List (String × List String)
deriving DecidableEq, Repr

/-- Current subscriber set of a task (`self.task_subscriptions[task_id]`,
empty when the key is absent). -/
def taskSubscribers (r : Registry) (task_id : String) : List String :=
  (dictLookup task_id r.taskSubscriptions).getD []

/-- Current subscriber set of a session. -/
def sessionSubscribers (r : Registry) (session_id : String) : List String :=
  (dictLookup session_id r.sessionSubscriptions).getD []

/-- `ConnectionManager.subscribe_to_task`: create the entry if absent, then
add the client to the set. -/
def subscribe_to_task (r : Registry) (client_id task_id : String) : Registry :=
  match dictLookup task_id r.taskSubscriptions with
  | none =>
    { r with taskSubscriptions := dictInsert task_id [client_id] r.taskSubscriptions }
  | some s =>
    { r with taskSubscriptions := dictInsert task_id (setAdd client_id s) r.taskSubscriptions }

/-- `ConnectionManager.unsubscribe_from_task`: discard the client from the
entry and drop the key when the set becomes empty. -/
def unsubscribe_from_task (r : Registry) (client_id task_id : String) : Registry :=
  match dictLookup task_id r.taskSubscriptions with
  | none => r
  | some s =>
    let s1 := setDiscard client_id s
    if s1 = [] then
      { r with taskSubscriptions := dictErase task_id r.taskSubscriptions }
    else
      { r with taskSubscriptions := dictInsert task_id s1 r.taskSubscriptions }

/-- `ConnectionManager.subscribe_to_session`. -/
def subscribe_to_session (r : Registry) (client_id session_id : String) : Registry :=
  match dictLookup session_id r.sessionSubscriptions with
  | none =>
    { r with sessionSubscriptions := dictInsert session_id [client_id] r.sessionSubscriptions }
  | some s =>
    { r with sessionSubscriptions := dictInsert session_id (setAdd client_id s) r.sessionSubscriptions }

/-- `ConnectionManager.unsubscribe_from_session`. -/
def unsubscribe_from_session (r : Registry) (client_id session_id : String) : Registry :=
  match dictLookup session_id r.sessionSubscriptions with
  | none => r
  | some s =>
    let s1 := setDiscard client_id s
    if s1 = [] then
      { r with sessionSubscriptions := dictErase session_id r.sessionSubscriptions }
    else
      { r with sessionSubscriptions := dictInsert session_id s1 r.sessionSubscriptions }

/-- One pass of `ConnectionManager._cleanup_subscriptions` over one index:
discard the client from every entry and delete entries that became empty.
The Python loop visits each key of a snapshot once, so it is exactly this
map-then-filter. -/
def cleanupIndex (client_id : String) :
    List (String × List String) → List (String × List String)
  | [] => []
  | (k, v) :: rest =>
    let v1 := setDiscard client_id v
    if v1 = [] then cleanupIndex client_id rest
    else (k, v1) :: cleanupIndex client_id rest

/-- `ConnectionManager._cleanup_subscriptions`: both indices. -/
def cleanup_subscriptions (r : Registry) (client_id : String) : Registry :=
  { r with
    taskSubscriptions := cleanupIndex client_id r.taskSubscriptions
    sessionSubscriptions := cleanupIndex client_id r.sessionSubscriptions }

/-- `ConnectionManager.disconnect`: drop the live socket, flip the record to
inactive when present, and clean both subscription indices.  The Python body
is wrapped in a logging try/except, so it is total (never raises). -/
def disconnect (r : Registry) (client_id : String) : Registry :=
  let r1 : Registry :=
    { r with activeConnections := setDiscard client_id r.activeConnections }
  let r2 : Registry :=
    match dictLookup client_id r1.connectionInfo with
    | none => r1
    | some info =>
      { r1 with connectionInfo :=
          dictInsert client_id { info with isActive := false } r1.connectionInfo }
  cleanup_subscriptions r2 client_id

/-- Outcome of one `websocket.send_text` call, as discriminated by the
except-clauses of `ConnectionManager.send_message`. -/
inductive SendOutcome where
  | ok
  | wsDisconnect
  | otherError
deriving DecidableEq, Repr

/-- `ConnectionManager.send_message`: attempt the write only when the client
is registered; `WebSocketDisconnect` triggers `disconnect` and returns
`False`; any other exception is logged and returns `False` without
disconnecting.  The message content does not influence the control flow. -/
def send_message (write : String → SendOutcome) (r : Registry)
    (client_id : String) (_msg : WSMessage) : Bool × Registry :=
  if client_id ∈ r.activeConnections then
    match write client_id with
    | SendOutcome.ok => (true, r)
    | SendOutcome.wsDisconnect => (false, disconnect r client_id)
    | SendOutcome.otherError => (false, r)
  else
    (false, r)

/-- Routing decision of the dispatcher's consumer loop for one drained
envelope. `toTaskSubscribers` / `toSessionSubscribers` / `toAllConnections`
name the `ConnectionManager` operation delegated to; `dropped` is the code
path where a task-scoped kind carries no `task_id` and nothing is sent. -/
inductive Route where
  | toTaskSubscribers (task_id : String)
  | toSessionSubscribers (session_id : String)
  | toAllConnections
  | dropped
deriving DecidableEq, Repr

/-- `RealtimeBroadcaster._process_broadcast_message`: `search_progress`,
`search_results` and `task_progress` go to the task's subscribers when the
payload carries a `task_id` (and nowhere otherwise); `system_notification`
goes to everyone; every other kind falls into the `else` branch, which is
also a full broadcast. -/
def process_broadcast_message (m : WSMessage) : Route :=
  match m.type with
  | MsgType.searchProgress =>
    match m.dataTaskId with
    | some t => Route.toTaskSubscribers t
    | none => Route.dropped
  | MsgType.searchResults =>
    match m.dataTaskId with
    | some t => Route.toTaskSubscribers t
    | none => Route.dropped
  | MsgType.taskProgress =>
    match m.dataTaskId with
    | some t => Route.toTaskSubscribers t
    | none => Route.dropped
  | MsgType.systemNotification => Route.toAllConnections
  | _ => Route.toAllConnections

/-- Recipient set a route resolves to, fresh at delivery time:
`broadcast_to_task_subscribers` / `broadcast_to_session_subscribers` /
`broadcast_message` in `connection_manager.py`. -/
def routeRecipients (r : Registry) : Route → List String
  | Route.toTaskSubscribers t => taskSubscribers r t
  | Route.toSessionSubscribers s => sessionSubscribers r s
  | Route.toAllConnections => r.activeConnections
  | Route.dropped => []

/-- One row of `RealtimeService.active_tasks`.  The Python value is a dict
whose keys appear over the row's lifetime; the optional fields model the
keys added later (`completed_at`, `failed_at`, `cancelled_at`, `error`).
The status is the literal string stored by the service
(`"started"`, `"in_progress"`, `"completed"`, `"failed"`, `"cancelled"`). -/
structure TaskInfo where
  requestQuery : String
  clientIp : String
  startedAt : Int
  status : String
  progress : Nat
  completedAt : Option Int := none
  failedAt : Option Int := none
  cancelledAt : Option Int := none
  errorMsg : Option String := none
deriving DecidableEq, Repr

/-- The task table `RealtimeService.active_tasks`. -/
abbrev TaskTable : Type := List (String × TaskInfo)

/-- Orchestrator-level events handed to the broadcaster's convenience
operations.  Each constructor records the envelope kind the broadcaster
builds for it (see `Event.toMessage`). -/
inductive Event where
  | taskStartEv (task_id msg : String)
  | progressUpdate (task_id : String) (pct : Nat) (msg step : String)
  | searchResultsEv (task_id : String) (totalCount : Nat)
  | taskCompleteEv (task_id msg : String) (totalCars : Nat)
  | taskErrorEv (task_id msg : String)
deriving DecidableEq, Repr

/-- Envelope an event is wrapped in before being enqueued:
`broadcast_task_start` builds a TASK_START message,
`broadcast_progress_update` a SEARCH_PROGRESS message,
`broadcast_search_results` a SEARCH_RESULTS message,
`broadcast_task_complete` a TASK_COMPLETE message and
`broadcast_error` a TASK_ERROR message — each with the `task_id` inside
`data`. -/
def Event.toMessage : Event → WSMessage
  | Event.taskStartEv t _ => { type := MsgType.taskStart, dataTaskId := some t }
  | Event.progressUpdate t _ _ _ => { type := MsgType.searchProgress, dataTaskId := some t }
  | Event.searchResultsEv t _ => { type := MsgType.searchResults, dataTaskId := some t }
  | Event.taskCompleteEv t _ _ => { type := MsgType.taskComplete, dataTaskId := some t }
  | Event.taskErrorEv t _ => { type := MsgType.taskError, dataTaskId := some t }

/-- Result of `RealtimeService.start_realtime_search`: the returned id, the
updated table, the events enqueued before returning, and the pipeline
launched via `asyncio.create_task` but not awaited. -/
structure StartResult where
  task_id : String
  table : TaskTable
  events : List Event
  spawned : List String
deriving Repr

/-- `RealtimeService.start_realtime_search`: uses the caller-supplied id
when given, else the fresh uuid; records the row with status `"started"`
and progress `0.0`; broadcasts TASK_START; spawns the pipeline and returns
at once. -/
def start_realtime_search (table : TaskTable) (query client_ip : String)
    (now : Int) (freshId : String) (given : Option String) : StartResult :=
  let task_id := given.getD freshId
  let info : TaskInfo :=
    { requestQuery := query, clientIp := client_ip, startedAt := now
      status := "started", progress := 0 }
  { task_id := task_id
    table := dictInsert task_id info table
    events := [Event.taskStartEv task_id ("开始搜索: " ++ query)]
    spawned := [task_id] }

/-- Behaviour of the external stage collaborators (`SearchService`) for one
run: each stage either returns its output or raises.  The payloads are
opaque to the orchestrator, so only the result counts are kept (the lengths
used in the emitted events). -/
structure SearchStages where
  parse_user_query : Except String Unit
  search_cars_from_sources : Except String Nat
  analyze_car_listings : Nat → Except String Nat

/-- The `except`-branch of `RealtimeService._execute_realtime_search`:
mark the task failed, record the error message and `failed_at` (only when
the row still exists). -/
def failTask (table : TaskTable) (task_id err : String) (now : Int) : TaskTable :=
  match dictLookup task_id table with
  | none => table
  | some info =>
    dictInsert task_id
      { info with status := "failed", errorMsg := some err, failedAt := some now }
      table

/-- `RealtimeService._execute_realtime_search` together with its three
helpers `_parse_query_with_progress`, `_search_cars_with_progress` and
`_analyze_results_with_progress`: the full pipeline run for one task,
returning the updated table and the events enqueued, in order.  The
consecutive dict writes of the terminal bookkeeping are collapsed into one
record update per status change.  `now` stands for `datetime.now()` at the
terminal write. -/
def execute_realtime_search (stages : SearchStages) (table : TaskTable)
    (task_id : String) (now : Int) : TaskTable × List Event :=
  match dictLookup task_id table with
  | none => (table, [Event.taskErrorEv task_id "任务信息不存在"])
  | some info =>
    let table1 := dictInsert task_id { info with status := "in_progress" } table
    let ev1 : List Event :=
      [Event.progressUpdate task_id 10 "正在解析用户查询..." "parsing_query",
       Event.progressUpdate task_id 20 "查询解析完成" "parsing_completed"]
    match stages.parse_user_query with
    | Except.error e =>
      (failTask table1 task_id e now,
       ev1 ++
       [Event.progressUpdate task_id 20 ("查询解析失败: " ++ e) "parsing_failed",
        Event.taskErrorEv task_id ("搜索过程中发生错误: " ++ e)])
    | Except.ok _ =>
      let ev2 := ev1 ++
        [Event.progressUpdate task_id 30 "开始搜索车源..." "searching_cars",
         Event.progressUpdate task_id 50 "正在搜索CarGurus..." "searching_cargurus",
         Event.progressUpdate task_id 60 "正在搜索Kijiji..." "searching_kijiji",
         Event.progressUpdate task_id 70 "正在搜索AutoTrader..." "searching_autotrader"]
      match stages.search_cars_from_sources with
      | Except.error e =>
        (failTask table1 task_id e now,
         ev2 ++
         [Event.progressUpdate task_id 70 ("搜索失败: " ++ e) "search_failed",
          Event.taskErrorEv task_id ("搜索过程中发生错误: " ++ e)])
      | Except.ok n =>
        let ev3 := ev2 ++
          [Event.progressUpdate task_id 75 ("找到 " ++ toString n ++ " 辆车源") "search_completed",
           Event.progressUpdate task_id 80 "正在分析搜索结果..." "analyzing_results",
           Event.progressUpdate task_id 85 "正在计算推荐分数..." "calculating_scores",
           Event.progressUpdate task_id 90 "正在排序结果..." "sorting_results"]
        match stages.analyze_car_listings n with
        | Except.error e =>
          (failTask table1 task_id e now,
           ev3 ++
           [Event.progressUpdate task_id 90 ("分析失败: " ++ e) "analysis_failed",
            Event.taskErrorEv task_id ("搜索过程中发生错误: " ++ e)])
        | Except.ok m =>
          let finalTable := dictInsert task_id
            { info with status := "completed", progress := 100, completedAt := some now }
            table1
          (finalTable,
           ev3 ++
           [Event.progressUpdate task_id 95 "分析完成" "analysis_completed",
            Event.progressUpdate task_id 100 "搜索完成" "completed",
            Event.searchResultsEv task_id m,
            Event.taskCompleteEv task_id "搜索任务完成" m])

/-- `RealtimeService.get_task_status`: `self.active_tasks.get(task_id)`. -/
def get_task_status (table : TaskTable) (task_id : String) : Option TaskInfo :=
  dictLookup task_id table

/-- `RealtimeService.cancel_task`: when the id is known, set the status to
`"cancelled"`, stamp `cancelled_at`, broadcast one error event and return
`True`; return `False` for unknown ids.  There is no check of the current
status. -/
def cancel_task (table : TaskTable) (task_id : String) (now : Int) :
    Bool × TaskTable × List Event :=
  match dictLookup task_id table with
  | some info =>
    (true,
     dictInsert task_id { info with status := "cancelled", cancelledAt := some now } table,
     [Event.taskErrorEv task_id "任务已取消"])
  | none => (false, table, [])

/-- The status strings treated as terminal by the cleanup sweep. -/
def terminalStatuses : List String := ["completed", "failed", "cancelled"]

/-- Terminal timestamp picked by the sweep: the Python truthiness chain
`completed_at or failed_at or cancelled_at` (a datetime is always truthy,
so this is the first present one). -/
def terminalTimestamp (info : TaskInfo) : Option Int :=
  (info.completedAt.orElse (fun _ => info.failedAt)).orElse (fun _ => info.cancelledAt)

/-- Eviction test of one row in `RealtimeService.cleanup_completed_tasks`:
terminal status, a terminal timestamp present, and strictly older than
`max_age_hours * 3600` seconds. -/
def shouldEvict (now maxAgeHours : Int) (info : TaskInfo) : Bool :=
  decide (info.status ∈ terminalStatuses) &&
    match terminalTimestamp info with
    | some t => decide (now - t > maxAgeHours * 3600)
    | none => false

/-- `RealtimeService.cleanup_completed_tasks`: collect the rows passing the
eviction test, delete them, and return how many were deleted (keys are
unique, so the count is the number of matching rows). -/
def cleanup_completed_tasks (table : TaskTable) (now maxAgeHours : Int) :
    Nat × TaskTable :=
  ((table.filter (fun kv => shouldEvict now maxAgeHours kv.snd)).length,
   table.filter (fun kv => !(shouldEvict now maxAgeHours kv.snd)))

/-- Frames the handler writes back on the sender's own socket while
processing one inbound frame: the ERROR envelope of `_send_error_message`,
the PONG reply of `_handle_ping`, and the SEARCH_START confirmation of
`_handle_search_start`. -/
inductive Reply where
  | errorReply (msg : String)
  | pongReply
  | searchStartConfirm (task_id : String)
deriving DecidableEq, Repr

/-- One inbound frame as seen by `MessageHandler.handle_message` after
`json.loads`: `invalidJson` models the `JSONDecodeError` branch,
`missingType` an object without a `"type"` key, and `typed` a decoded
object with its `type` string and the `task_id` / `session_id` entries of
its `data` payload (`none` models a missing or Python-falsy value, matching
the `if not task_id:` / `if task_id:` truthiness checks in the handlers). -/
inductive Inbound where
  | invalidJson
  | missingType
  | typed (typeStr : String) (dataTaskId dataSessionId : Option String)
deriving DecidableEq, Repr

/-- Dispatch through `MessageHandler.handlers` for a decoded kind.  The
kinds absent from the dict (`connect`, `disconnect`, `search_complete`,
`conversation_response`, `system_notification`, `error`) hit the
"不支持的消息类型" error reply.  `now` stands for `datetime.now()` in
`_handle_pong`. -/
def dispatchHandler (r : Registry) (client_id : String) (mt : MsgType)
    (dTask dSession : Option String) (typeStr : String) (now : Int) :
    Registry × List Reply :=
  match mt with
  | MsgType.ping => (r, [Reply.pongReply])
  | MsgType.pong =>
    match dictLookup client_id r.connectionInfo with
    | none => (r, [])
    | some info =>
      ({ r with connectionInfo :=
           dictInsert client_id { info with lastPing := some now } r.connectionInfo },
       [])
  | MsgType.searchStart =>
    match dTask with
    | none => (r, [Reply.errorReply "搜索任务ID不能为空"])
    | some tid => (subscribe_to_task r client_id tid, [Reply.searchStartConfirm tid])
  | MsgType.searchProgress => (r, [])
  | MsgType.searchResults => (r, [])
  | MsgType.searchError => (r, [])
  | MsgType.conversationMessage =>
    match dSession with
    | none => (r, [])
    | some sid => (subscribe_to_session r client_id sid, [])
  | MsgType.taskStart =>
    match dTask with
    | none => (r, [])
    | some tid => (subscribe_to_task r client_id tid, [])
  | MsgType.taskProgress => (r, [])
  | MsgType.taskComplete =>
    match dTask with
    | none => (r, [])
    | some tid => (unsubscribe_from_task r client_id tid, [])
  | MsgType.taskError =>
    match dTask with
    | none => (r, [])
    | some tid => (unsubscribe_from_task r client_id tid, [])
  | _ => (r, [Reply.errorReply ("不支持的消息类型: " ++ typeStr)])

/-- `MessageHandler.handle_message`: decode, reject a missing or empty
`type` ("消息类型不能为空"), reject an unknown `type`
("无效的消息类型"), otherwise dispatch.  It never closes the connection
and never touches the live-connection set of the registry. -/
def handle_message (r : Registry) (client_id : String) (now : Int) :
    Inbound → Registry × List Reply
  | Inbound.invalidJson => (r, [Reply.errorReply "无效的JSON格式"])
  | Inbound.missingType => (r, [Reply.errorReply "消息类型不能为空"])
  | Inbound.typed typeStr dTask dSession =>
    if typeStr = "" then (r, [Reply.errorReply "消息类型不能为空"])
    else
      match parseMsgType typeStr with
      | none => (r, [Reply.errorReply ("无效的消息类型: " ++ typeStr)])
      | some mt => dispatchHandler r client_id mt dTask dSession typeStr now

/-- Frames for which `handle_message` takes one of its three rejection
paths: undecodable JSON, a missing/empty `type`, or a `type` string that is
not a member of the `WebSocketMessageType` enum. -/
def isMalformedOrUnknown : Inbound → Bool
  | Inbound.invalidJson => true
  | Inbound.missingType => true
  | Inbound.typed typeStr _ _ => typeStr = "" || (parseMsgType typeStr).isNone

/-! ### Lemmas about the dictionary and set primitives -/

theorem dictLookup_insert_self {α : Type} (k : String) (v : α) (l : List (String × α)) :
    dictLookup k (dictInsert k v l) = some v := by
  induction l with
  | nil => simp [dictLookup, dictInsert]
  | cons kv rest ih =>
    obtain ⟨k1, v1⟩ := kv
    by_cases h : k1 = k
    · simp [dictInsert, dictLookup, h]
    · simp [dictInsert, dictLookup, h, ih]

theorem dictLookup_insert_ne {α : Type} (k k1 : String) (v : α) (l : List (String × α))
    (h : k1 ≠ k) : dictLookup k1 (dictInsert k v l) = dictLookup k1 l := by
  induction l with
  | nil => simp [dictLookup, dictInsert, Ne.symm h]
  | cons kv rest ih =>
    obtain ⟨k2, v2⟩ := kv
    by_cases h2 : k2 = k
    · subst h2
      simp [dictInsert, dictLookup, Ne.symm h]
    · simp [dictInsert, dictLookup, h2, ih]

theorem dictInsert_of_lookup_eq {α : Type} (k : String) (v : α) (l : List (String × α))
    (h : dictLookup k l = some v) : dictInsert k v l = l := by
  induction l with
  | nil => simp [dictLookup] at h
  | cons kv rest ih =>
    obtain ⟨k1, v1⟩ := kv
    by_cases hk : k1 = k
    · subst hk
      simp [dictLookup] at h
      simp [dictInsert, h]
    · simp [dictLookup, hk] at h
      simp [dictInsert, hk, ih h]

theorem dictLookup_erase_self {α : Type} (k : String) (l : List (String × α)) :
    dictLookup k (dictErase k l) = none := by
  induction l with
  | nil => rfl
  | cons kv rest ih =>
    obtain ⟨k1, v1⟩ := kv
    by_cases hk : k1 = k
    · simp [dictErase, hk, ih]
    · simp [dictErase, dictLookup, hk, ih]

theorem dictLookup_erase_ne {α : Type} (k k1 : String) (l : List (String × α))
    (h : k1 ≠ k) : dictLookup k1 (dictErase k l) = dictLookup k1 l := by
  induction l with
  | nil => rfl
  | cons kv rest ih =>
    obtain ⟨k2, v2⟩ := kv
    by_cases h2 : k2 = k
    · subst h2
      simp [dictErase, dictLookup, Ne.symm h, ih]
    · simp [dictErase, dictLookup, h2, ih]

theorem mem_setDiscard (x c : String) (s : List String) :
    x ∈ setDiscard c s ↔ x ∈ s ∧ x ≠ c := by
  induction s with
  | nil => simp [setDiscard]
  | cons y rest ih =>
    by_cases hy : y = c
    · subst hy
      simp [setDiscard, ih]
      intro hx
      exact fun he => (hx he).elim
    · simp [setDiscard, hy, ih]
      constructor
      · rintro (rfl | ⟨hmem, hne⟩)
        · exact ⟨Or.inl rfl, hy⟩
        · exact ⟨Or.inr hmem, hne⟩
      · rintro ⟨rfl | hmem, hne⟩
        · exact Or.inl rfl
        · exact Or.inr ⟨hmem, hne⟩

theorem not_mem_setDiscard_self (c : String) (s : List String) :
    c ∉ setDiscard c s := by
  intro h
  exact ((mem_setDiscard c c s).mp h).2 rfl

theorem setDiscard_of_not_mem (c : String) (s : List String) (h : c ∉ s) :
    setDiscard c s = s := by
  induction s with
  | nil => rfl
  | cons y rest ih =>
    simp at h
    simp [setDiscard, Ne.symm h.1, ih h.2]

theorem setDiscard_idem (c : String) (s : List String) :
    setDiscard c (setDiscard c s) = setDiscard c s :=
  setDiscard_of_not_mem c _ (not_mem_setDiscard_self c s)

theorem mem_cleanupIndex (c : String) (idx : List (String × List String)) :
    ∀ kv ∈ cleanupIndex c idx, c ∉ kv.snd ∧ kv.snd ≠ [] := by
  induction idx with
  | nil => simp [cleanupIndex]
  | cons kv0 rest ih =>
    obtain ⟨k, v⟩ := kv0
    by_cases hv : setDiscard c v = []
    · simpa [cleanupIndex, hv] using ih
    · intro kv hkv
      simp [cleanupIndex, hv] at hkv
      rcases hkv with rfl | hkv
      · exact ⟨not_mem_setDiscard_self c v, hv⟩
      · exact ih kv hkv

theorem cleanupIndex_idem (c : String) (idx : List (String × List String)) :
    cleanupIndex c (cleanupIndex c idx) = cleanupIndex c idx := by
  induction idx with
  | nil => rfl
  | cons kv0 rest ih =>
    obtain ⟨k, v⟩ := kv0
    by_cases hv : setDiscard c v = []
    · simp [cleanupIndex, hv, ih]
    · simp [cleanupIndex, hv, setDiscard_idem, ih]

theorem cleanupIndex_eq_self (c : String) (idx : List (String × List String))
    (h : ∀ kv ∈ idx, c ∉ kv.snd ∧ kv.snd ≠ []) : cleanupIndex c idx = idx := by
  induction idx with
  | nil => rfl
  | cons kv0 rest ih =>
    obtain ⟨k, v⟩ := kv0
    have hd := h (k, v) (List.mem_cons_self _ _)
    have hv : setDiscard c v = v := setDiscard_of_not_mem c v hd.1
    have hrest : ∀ kv ∈ rest, c ∉ kv.snd ∧ kv.snd ≠ [] :=
      fun kv hkv => h kv (List.mem_cons_of_mem _ hkv)
    simp [cleanupIndex, hv, hd.2, ih hrest]

/-- Shape of `disconnect`: each field of the resulting registry. -/
theorem disconnect_def (r : Registry) (c : String) :
    disconnect r c =
      { activeConnections := setDiscard c r.activeConnections
        connectionInfo :=
          match dictLookup c r.connectionInfo with
          | none => r.connectionInfo
          | some info => dictInsert c { info with isActive := false } r.connectionInfo
        taskSubscriptions := cleanupIndex c r.taskSubscriptions
        sessionSubscriptions := cleanupIndex c r.sessionSubscriptions } := by
  cases h : dictLookup c r.connectionInfo <;>
    simp [disconnect, cleanup_subscriptions, h]

/-- CLAIM C3.  After `disconnect(c)` the id `c` appears in no entry of either
subscription index and its connection record (when one exists) is marked
inactive; `disconnect` is idempotent, and on a state that never saw `c`
(no live socket, no record, no index membership — with the indices free of
empty entries, as every reachable state is) it is the identity.  The Python
body is wrapped in a try/except, so the operation is total and never
raises. -/
theorem disconnect_cleans_indices_and_is_idempotent (r : Registry) (c : String) :
    (∀ kv ∈ (disconnect r c).taskSubscriptions, c ∉ kv.snd) ∧
    (∀ kv ∈ (disconnect r c).sessionSubscriptions, c ∉ kv.snd) ∧
    c ∉ (disconnect r c).activeConnections ∧
    (∀ info, dictLookup c (disconnect r c).connectionInfo = some info →
      info.isActive = false) ∧
    disconnect (disconnect r c) c = disconnect r c ∧
    (c ∉ r.activeConnections →
      dictLookup c r.connectionInfo = none →
      (∀ kv ∈ r.taskSubscriptions, c ∉ kv.snd ∧ kv.snd ≠ []) →
      (∀ kv ∈ r.sessionSubscriptions, c ∉ kv.snd ∧ kv.snd ≠ []) →
      disconnect r c = r) := by
  refine ⟨?_, ?_, ?_, ?_, ?_, ?_⟩
  · intro kv hkv
    rw [disconnect_def] at hkv
    exact (mem_cleanupIndex c r.taskSubscriptions kv hkv).1
  · intro kv hkv
    rw [disconnect_def] at hkv
    exact (mem_cleanupIndex c r.sessionSubscriptions kv hkv).1
  · rw [disconnect_def]
    exact not_mem_setDiscard_self c r.activeConnections
  · intro info hinfo
    rw [disconnect_def] at hinfo
    cases h : dictLookup c r.connectionInfo with
    | none => simp [h] at hinfo
    | some i =>
      rw [h] at hinfo
      simp only [dictLookup_insert_self] at hinfo
      cases hinfo
      rfl
  · rw [disconnect_def, disconnect_def]
    cases h : dictLookup c r.connectionInfo with
    | none =>
      simp only [h]
      simp [setDiscard_idem, cleanupIndex_idem, h]
    | some i =>
      simp only [h, dictLookup_insert_self]
      have hins : dictInsert c { i with isActive := false }
          (dictInsert c { i with isActive := false } r.connectionInfo) =
          dictInsert c { i with isActive := false } r.connectionInfo :=
        dictInsert_of_lookup_eq _ _ _ (dictLookup_insert_self _ _ _)
      simp [setDiscard_idem, cleanupIndex_idem, hins]
  · intro hact hinfo htask hsession
    have h1 := setDiscard_of_not_mem c r.activeConnections hact
    have h2 := cleanupIndex_eq_self c r.taskSubscriptions htask
    have h3 := cleanupIndex_eq_self c r.sessionSubscriptions hsession
    rw [disconnect_def]
    simp [hinfo, h1, h2, h3]

/-- Registry with a single live client `"c"`, used to instantiate theorems
about `send_message`. -/
def oneClientRegistry : Registry :=
  { activeConnections := ["c"]
    connectionInfo := [("c", { clientId := "c", connectedAt := 0 })]
    taskSubscriptions := []
    sessionSubscriptions := [] }

/-- CLAIM C6, counterexample: when the write raises an exception other than
`WebSocketDisconnect`, `send_message` returns `False` but does NOT trigger
`disconnect` — the dead peer stays in the live set, contradicting the claim
that a failing write always removes it. -/
theorem send_message_other_error_keeps_peer :
    (send_message (fun _ => SendOutcome.otherError) oneClientRegistry "c"
        { type := MsgType.ping }).fst = false ∧
    "c" ∈ (send_message (fun _ => SendOutcome.otherError) oneClientRegistry "c"
        { type := MsgType.ping }).snd.activeConnections := by
  refine ⟨rfl, ?_⟩
  simp [send_message, oneClientRegistry]

/-- CLAIM C6 (amended): `send_message` returns `False` on every failing
write and never propagates the failure to the caller, but it triggers
`disconnect` only when the failure is a `WebSocketDisconnect`; on any other
write exception the client remains registered. -/
theorem send_message_failure_behaviour (write : String → SendOutcome)
    (r : Registry) (c : String) (msg : WSMessage)
    (h : c ∈ r.activeConnections) :
    (write c ≠ SendOutcome.ok → (send_message write r c msg).fst = false) ∧
    (write c = SendOutcome.wsDisconnect →
      send_message write r c msg = (false, disconnect r c)) ∧
    (write c = SendOutcome.otherError →
      send_message write r c msg = (false, r)) ∧
    (write c = SendOutcome.ok → send_message write r c msg = (true, r)) := by
  have hsend : send_message write r c msg =
      (match write c with
       | SendOutcome.ok => (true, r)
       | SendOutcome.wsDisconnect => (false, disconnect r c)
       | SendOutcome.otherError => (false, r)) := by
    simp [send_message, h]
  refine ⟨?_, ?_, ?_, ?_⟩
  · intro hw
    rw [hsend]
    cases hc : write c
    · exact absurd hc hw
    · rfl
    · rfl
  · intro hw
    rw [hsend, hw]
  · intro hw
    rw [hsend, hw]
  · intro hw
    rw [hsend, hw]

/-- Witness for C6 (amended) at the one-client registry and an
always-disconnecting write. -/
theorem send_message_failure_behaviour_witness :
    "c" ∈ oneClientRegistry.activeConnections ∧
    ((fun _ : String => SendOutcome.wsDisconnect) "c" = SendOutcome.wsDisconnect →
      send_message (fun _ => SendOutcome.wsDisconnect) oneClientRegistry "c"
          { type := MsgType.ping } =
        (false, disconnect oneClientRegistry "c")) :=
  ⟨by simp [oneClientRegistry],
   (send_message_failure_behaviour (fun _ => SendOutcome.wsDisconnect)
      oneClientRegistry "c" { type := MsgType.ping }
      (by simp [oneClientRegistry])).2.1⟩

/-- Task row already in the terminal status `"completed"`. -/
def completedTaskRow : TaskInfo :=
  { requestQuery := "q", clientIp := "127.0.0.1", startedAt := 0
    status := "completed", progress := 100, completedAt := some 50 }

/-- CLAIM C1, counterexample: `cancel_task` on a task whose status is already
terminal (`"completed"`) still changes the status — to `"cancelled"` — so a
terminal status is not immutable and `cancel_task` is not a no-op there. -/
theorem cancel_overwrites_completed_status :
    Option.map TaskInfo.status
        (get_task_status [("T", completedTaskRow)] "T") = some "completed" ∧
    (cancel_task [("T", completedTaskRow)] "T" 60).fst = true ∧
    Option.map TaskInfo.status
        (get_task_status (cancel_task [("T", completedTaskRow)] "T" 60).snd.fst "T") =
      some "cancelled" ∧
    "cancelled" ≠ "completed" := by
  refine ⟨rfl, rfl, rfl, by decide⟩

/-- CLAIM C1 (amended): a terminal task is never returned to a non-terminal
status, but it is not frozen: `cancel_task` on any known id — terminal
included — overwrites the status with `"cancelled"` (itself terminal) and
stamps `cancelled_at`, leaving the other fields unchanged; on a task already
`"cancelled"` the observable status does not change. -/
theorem cancel_task_on_terminal (table : TaskTable) (task_id : String)
    (now : Int) (info : TaskInfo)
    (h : dictLookup task_id table = some info)
    (_hterm : info.status ∈ terminalStatuses) :
    (cancel_task table task_id now).fst = true ∧
    get_task_status (cancel_task table task_id now).snd.fst task_id =
      some { info with status := "cancelled", cancelledAt := some now } ∧
    "cancelled" ∈ terminalStatuses ∧
    (info.status = "cancelled" →
      Option.map TaskInfo.status
          (get_task_status (cancel_task table task_id now).snd.fst task_id) =
        Option.map TaskInfo.status (get_task_status table task_id)) := by
  refine ⟨?_, ?_, ?_, ?_⟩
  · simp [cancel_task, h]
  · simp [cancel_task, h, get_task_status, dictLookup_insert_self]
  · simp [terminalStatuses]
  · intro hc
    simp [cancel_task, h, get_task_status, dictLookup_insert_self, hc]

/-- Witness for C1 (amended) at the completed one-row table. -/
theorem cancel_task_on_terminal_witness :
    dictLookup "T" [("T", completedTaskRow)] = some completedTaskRow ∧
    completedTaskRow.status ∈ terminalStatuses ∧
    get_task_status (cancel_task [("T", completedTaskRow)] "T" 60).snd.fst "T" =
      some { completedTaskRow with status := "cancelled", cancelledAt := some 60 } :=
  ⟨rfl, by simp [completedTaskRow, terminalStatuses],
   (cancel_task_on_terminal [("T", completedTaskRow)] "T" 60 completedTaskRow rfl
      (by simp [completedTaskRow, terminalStatuses])).2.1⟩

theorem dictLookup_eq_none_iff {α : Type} (k : String) (l : List (String × α)) :
    dictLookup k l = none ↔ ∀ v : α, (k, v) ∉ l := by
  induction l with
  | nil => simp [dictLookup]
  | cons kv rest ih =>
    obtain ⟨k1, v1⟩ := kv
    by_cases h : k1 = k
    · subst h
      constructor
      · intro hl
        simp [dictLookup] at hl
      · intro hv
        exact absurd (List.mem_cons_self _ _) (hv v1)
    · constructor
      · intro hl v hmem
        rcases List.mem_cons.mp hmem with he | hm
        · exact h (congrArg Prod.fst he).symm
        · exact (ih.mp (by simpa [dictLookup, h] using hl)) v hm
      · intro hv
        simp only [dictLookup, h, if_false]
        exact ih.mpr (fun v hm => hv v (List.mem_cons_of_mem _ hm))

theorem dictLookup_mem {α : Type} (k : String) (v : α) (l : List (String × α))
    (h : dictLookup k l = some v) : (k, v) ∈ l := by
  induction l with
  | nil => simp [dictLookup] at h
  | cons kv rest ih =>
    obtain ⟨k1, v1⟩ := kv
    by_cases hk : k1 = k
    · subst hk
      simp [dictLookup] at h
      subst h
      exact List.mem_cons_self _ _
    · simp [dictLookup, hk] at h
      exact List.mem_cons_of_mem _ (ih h)

/-- CLAIM C8.  `get_task_status` returns nothing exactly for ids absent from
the task table, and `cancel_task` returns `False` exactly for absent ids
(`True` otherwise).  Every other operation of the embedded subsystem is a
total function with no failure outcome in its return type, so these two are
the only operations reporting a failure for an unknown id. -/
theorem control_plane_unknown_id (table : TaskTable) (task_id : String) (now : Int) :
    (get_task_status table task_id = none ↔ ∀ info : TaskInfo, (task_id, info) ∉ table) ∧
    ((cancel_task table task_id now).fst = false ↔ ∀ info : TaskInfo, (task_id, info) ∉ table) ∧
    ((cancel_task table task_id now).fst = true ↔ ∃ info : TaskInfo, (task_id, info) ∈ table) := by
  have hiff := dictLookup_eq_none_iff task_id table
  refine ⟨hiff, ?_, ?_⟩
  · cases h : dictLookup task_id table with
    | none =>
      simp [cancel_task, h]
      exact hiff.mp h
    | some i =>
      simp [cancel_task, h]
      exact ⟨i, dictLookup_mem _ _ _ h⟩
  · cases h : dictLookup task_id table with
    | none =>
      simp [cancel_task, h]
      intro v hmem
      exact hiff.mp h v hmem
    | some i =>
      simp [cancel_task, h]
      exact ⟨i, dictLookup_mem _ _ _ h⟩

theorem filter_length_partition {α : Type} (p : α → Bool) (l : List α) :
    (l.filter p).length + (l.filter (fun a => !(p a))).length = l.length := by
  induction l with
  | nil => rfl
  | cons x rest ih =>
    cases hp : p x <;> simp [List.filter_cons, hp] <;> omega

theorem filter_not_filter {α : Type} (p : α → Bool) (l : List α) :
    (l.filter (fun a => !(p a))).filter p = [] := by
  induction l with
  | nil => rfl
  | cons x rest ih =>
    cases hp : p x <;> simp [List.filter_cons, hp, ih]

theorem filter_not_idem {α : Type} (p : α → Bool) (l : List α) :
    (l.filter (fun a => !(p a))).filter (fun a => !(p a)) =
      l.filter (fun a => !(p a)) := by
  induction l with
  | nil => rfl
  | cons x rest ih =>
    cases hp : p x <;> simp [List.filter_cons, hp, ih]

theorem shouldEvict_iff (now maxAgeHours : Int) (info : TaskInfo) :
    shouldEvict now maxAgeHours info = true ↔
      info.status ∈ terminalStatuses ∧
        ∃ ts, terminalTimestamp info = some ts ∧ now - ts > maxAgeHours * 3600 := by
  cases h : terminalTimestamp info <;> simp [shouldEvict, h]

/-- CLAIM C5.  `cleanup_completed_tasks` keeps exactly the rows that are not
(terminal with a terminal timestamp strictly older than `max_age_hours`),
each kept row unchanged; the returned count plus the surviving rows add up
to the whole table; and an immediate second sweep (same `now`) evicts 0 and
leaves the table as it was. -/
theorem cleanup_evicts_exactly_old_terminal (table : TaskTable) (now maxAgeHours : Int) :
    (∀ kv : String × TaskInfo,
      kv ∈ (cleanup_completed_tasks table now maxAgeHours).snd ↔
        kv ∈ table ∧
          ¬(kv.snd.status ∈ terminalStatuses ∧
            ∃ ts, terminalTimestamp kv.snd = some ts ∧ now - ts > maxAgeHours * 3600)) ∧
    (cleanup_completed_tasks table now maxAgeHours).fst +
        ((cleanup_completed_tasks table now maxAgeHours).snd).length = table.length ∧
    cleanup_completed_tasks (cleanup_completed_tasks table now maxAgeHours).snd
        now maxAgeHours =
      (0, (cleanup_completed_tasks table now maxAgeHours).snd) := by
  refine ⟨?_, ?_, ?_⟩
  · intro kv
    simp [cleanup_completed_tasks, List.mem_filter, ← shouldEvict_iff]
  · exact filter_length_partition _ table
  · simp only [cleanup_completed_tasks, Prod.mk.injEq]
    exact ⟨by rw [filter_not_filter]; rfl, filter_not_idem _ table⟩

/-- CLAIM C7, counterexample: the row `start_realtime_search` inserts has
status `"started"`, not the `"pending"` the claim states. -/
theorem start_inserts_started_row :
    Option.map TaskInfo.status
        (get_task_status
          (start_realtime_search [] "2020 Civic under 20000" "1.2.3.4" 0 "T" none).table
          "T") = some "started" ∧
    "started" ≠ "pending" := by
  exact ⟨rfl, by decide⟩

/-- CLAIM C7 (amended): `start_realtime_search` returns the generated id
(or the caller-supplied one when given), inserts a row with status
`"started"` and progress `0`, enqueues exactly one TASK_START event, and
returns with the pipeline merely spawned — no pipeline effect is visible in
the table or the emitted events yet. -/
theorem start_realtime_search_behaviour (table : TaskTable)
    (query client_ip : String) (now : Int) (freshId : String) :
    (start_realtime_search table query client_ip now freshId none).task_id = freshId ∧
    get_task_status
        (start_realtime_search table query client_ip now freshId none).table freshId =
      some { requestQuery := query, clientIp := client_ip, startedAt := now
             status := "started", progress := 0 } ∧
    (start_realtime_search table query client_ip now freshId none).events =
      [Event.taskStartEv freshId ("开始搜索: " ++ query)] ∧
    (start_realtime_search table query client_ip now freshId none).spawned = [freshId] ∧
    (∀ gid : String,
      (start_realtime_search table query client_ip now freshId (some gid)).task_id = gid) := by
  refine ⟨rfl, ?_, rfl, rfl, fun gid => rfl⟩
  simp [start_realtime_search, get_task_status, dictLookup_insert_self]

/-- The three kinds the consumer loop routes through the task index. -/
def taskRoutedKinds : List MsgType :=
  [MsgType.searchProgress, MsgType.searchResults, MsgType.taskProgress]

/-- Registry for the C2 counterexample: clients `"a"` and `"b"` live, only
`"a"` subscribed to task `"T"`. -/
def twoClientRegistry : Registry :=
  { activeConnections := ["a", "b"]
    connectionInfo := []
    taskSubscriptions := [("T", ["a"])]
    sessionSubscriptions := [] }

/-- CLAIM C2, counterexample: a `task_complete` envelope carrying a
`task_id` is routed to the FULL broadcast set, not to the task's
subscribers — the non-subscriber `"b"` receives it. -/
theorem task_complete_routed_to_everyone :
    process_broadcast_message { type := MsgType.taskComplete, dataTaskId := some "T" } =
      Route.toAllConnections ∧
    Route.toAllConnections ≠ Route.toTaskSubscribers "T" ∧
    routeRecipients twoClientRegistry
        (process_broadcast_message
          { type := MsgType.taskComplete, dataTaskId := some "T" }) = ["a", "b"] ∧
    taskSubscribers twoClientRegistry "T" = ["a"] := by
  refine ⟨rfl, by decide, rfl, rfl⟩

/-- CLAIM C2 (amended): only `search_progress`, `search_results` and
`task_progress` envelopes are routed through the task-subscriber index (to
exactly the subscribers of the `task_id` in the payload; dropped entirely
when the payload carries none); the consumer loop never routes through the
session index; every other kind — `task_start`, `task_complete`,
`task_error`, the conversation kinds, system notifications, and anything
else — is delivered to the full broadcast set. -/
theorem broadcast_routing (m : WSMessage) :
    (m.type ∈ taskRoutedKinds →
      (∀ t, m.dataTaskId = some t →
        process_broadcast_message m = Route.toTaskSubscribers t) ∧
      (m.dataTaskId = none → process_broadcast_message m = Route.dropped)) ∧
    (m.type ∉ taskRoutedKinds → process_broadcast_message m = Route.toAllConnections) ∧
    (∀ s, process_broadcast_message m ≠ Route.toSessionSubscribers s) ∧
    (∀ r t, routeRecipients r (Route.toTaskSubscribers t) = taskSubscribers r t) ∧
    (∀ r, routeRecipients r Route.toAllConnections = r.activeConnections) := by
  obtain ⟨mt, dT, dS⟩ := m
  cases mt <;> cases dT <;>
    simp [process_broadcast_message, taskRoutedKinds, routeRecipients]

/-- Progress percentages of the PROGRESS events of a run, in emit order. -/
def progressPcts (events : List Event) : List Nat :=
  events.filterMap fun e =>
    match e with
    | Event.progressUpdate _ p _ _ => some p
    | _ => none

/-- Test for a task-completion event. -/
def isTaskCompleteEv : Event → Bool
  | Event.taskCompleteEv _ _ _ => true
  | _ => false

/-- CLAIM C4.  On a run where every stage succeeds, the progress
percentages are non-decreasing and end at 100, exactly one `task_complete`
event is emitted and it comes after every other event of the run, and
`get_task_status` afterwards reports status `"completed"` with progress
100. -/
theorem pipeline_success_run (stages : SearchStages) (table : TaskTable)
    (task_id : String) (now : Int) (info : TaskInfo) (n m : Nat)
    (hlook : dictLookup task_id table = some info)
    (hparse : stages.parse_user_query = Except.ok ())
    (hsearch : stages.search_cars_from_sources = Except.ok n)
    (hanalyze : stages.analyze_car_listings n = Except.ok m) :
    List.Chain' (fun a b => a ≤ b)
        (progressPcts (execute_realtime_search stages table task_id now).snd) ∧
    (progressPcts (execute_realtime_search stages table task_id now).snd).getLast? =
      some 100 ∧
    (execute_realtime_search stages table task_id now).snd.filter isTaskCompleteEv =
      [Event.taskCompleteEv task_id "搜索任务完成" m] ∧
    (execute_realtime_search stages table task_id now).snd.getLast? =
      some (Event.taskCompleteEv task_id "搜索任务完成" m) ∧
    Option.map TaskInfo.status
        (get_task_status (execute_realtime_search stages table task_id now).fst task_id) =
      some "completed" ∧
    Option.map TaskInfo.progress
        (get_task_status (execute_realtime_search stages table task_id now).fst task_id) =
      some 100 := by
  have hE : execute_realtime_search stages table task_id now =
      (dictInsert task_id
         { info with status := "completed", progress := 100, completedAt := some now }
         (dictInsert task_id { info with status := "in_progress" } table),
       [Event.progressUpdate task_id 10 "正在解析用户查询..." "parsing_query",
        Event.progressUpdate task_id 20 "查询解析完成" "parsing_completed",
        Event.progressUpdate task_id 30 "开始搜索车源..." "searching_cars",
        Event.progressUpdate task_id 50 "正在搜索CarGurus..." "searching_cargurus",
        Event.progressUpdate task_id 60 "正在搜索Kijiji..." "searching_kijiji",
        Event.progressUpdate task_id 70 "正在搜索AutoTrader..." "searching_autotrader",
        Event.progressUpdate task_id 75 ("找到 " ++ toString n ++ " 辆车源") "search_completed",
        Event.progressUpdate task_id 80 "正在分析搜索结果..." "analyzing_results",
        Event.progressUpdate task_id 85 "正在计算推荐分数..." "calculating_scores",
        Event.progressUpdate task_id 90 "正在排序结果..." "sorting_results",
        Event.progressUpdate task_id 95 "分析完成" "analysis_completed",
        Event.progressUpdate task_id 100 "搜索完成" "completed",
        Event.searchResultsEv task_id m,
        Event.taskCompleteEv task_id "搜索任务完成" m]) := by
    simp [execute_realtime_search, hlook, hparse, hsearch, hanalyze]
  rw [hE]
  refine ⟨?_, ?_, ?_, ?_, ?_, ?_⟩
  · simp [progressPcts]
  · rfl
  · rfl
  · rfl
  · simp [get_task_status, dictLookup_insert_self]
  · simp [get_task_status, dictLookup_insert_self]

/-- Stage oracle where every stage succeeds, for the C4 witness. -/
def allOkStages : SearchStages :=
  { parse_user_query := Except.ok ()
    search_cars_from_sources := Except.ok 2
    analyze_car_listings := fun _ => Except.ok 2 }

/-- Fresh task row for the C4 witness. -/
def startedTaskRow : TaskInfo :=
  { requestQuery := "2020 Civic under 20000", clientIp := "9.9.9.9"
    startedAt := 0, status := "started", progress := 0 }

/-- Witness for C4 at a one-row table and an all-success stage oracle. -/
theorem pipeline_success_run_witness :
    dictLookup "T" [("T", startedTaskRow)] = some startedTaskRow ∧
    allOkStages.parse_user_query = Except.ok () ∧
    Option.map TaskInfo.status
        (get_task_status
          (execute_realtime_search allOkStages [("T", startedTaskRow)] "T" 5).fst "T") =
      some "completed" :=
  ⟨rfl, rfl,
   (pipeline_success_run allOkStages [("T", startedTaskRow)] "T" 5 startedTaskRow 2 2
      rfl rfl rfl rfl).2.2.2.2.1⟩

/-- CLAIM C9.  Every malformed inbound frame (undecodable JSON, missing or
empty `type`) and every frame whose `type` is not a member of the message
kind enum is answered with exactly one ERROR reply on the same connection,
and the registry — live set, records and both subscription indices — is
left untouched (the connection is neither closed nor removed). -/
theorem malformed_frame_gets_one_error_reply (r : Registry) (client_id : String)
    (now : Int) (inb : Inbound) (h : isMalformedOrUnknown inb = true) :
    (handle_message r client_id now inb).fst = r ∧
    ∃ emsg, (handle_message r client_id now inb).snd = [Reply.errorReply emsg] := by
  cases inb with
  | invalidJson => exact ⟨rfl, "无效的JSON格式", rfl⟩
  | missingType => exact ⟨rfl, "消息类型不能为空", rfl⟩
  | typed t dT dS =>
    by_cases ht : t = ""
    · subst ht
      exact ⟨rfl, "消息类型不能为空", rfl⟩
    · simp [isMalformedOrUnknown, ht] at h
      cases hp : parseMsgType t with
      | none =>
        simp [handle_message, ht, hp]
      | some mt =>
        rw [hp] at h
        simp at h

/-- Witness for C9 at a frame with an unknown `type` string. -/
theorem malformed_frame_gets_one_error_reply_witness :
    isMalformedOrUnknown (Inbound.typed "bogus" none none) = true ∧
    (handle_message twoClientRegistry "a" 0 (Inbound.typed "bogus" none none)).fst =
      twoClientRegistry :=
  ⟨rfl,
   (malformed_frame_gets_one_error_reply twoClientRegistry "a" 0
      (Inbound.typed "bogus" none none) rfl).1⟩

theorem unsubscribe_sessions_unchanged (r : Registry) (cid tid : String) :
    (unsubscribe_from_task r cid tid).sessionSubscriptions =
      r.sessionSubscriptions := by
  cases h : dictLookup tid r.taskSubscriptions with
  | none => simp [unsubscribe_from_task, h]
  | some s =>
    by_cases hs : setDiscard cid s = [] <;>
      simp [unsubscribe_from_task, h, hs]

theorem taskSubscribers_unsubscribe (r : Registry) (cid tid t2 : String) :
    taskSubscribers (unsubscribe_from_task r cid tid) t2 =
      if t2 = tid then setDiscard cid (taskSubscribers r tid)
      else taskSubscribers r t2 := by
  cases h : dictLookup tid r.taskSubscriptions with
  | none =>
    by_cases h2 : t2 = tid
    · subst h2
      simp [unsubscribe_from_task, h, taskSubscribers, setDiscard]
    · simp [unsubscribe_from_task, h, taskSubscribers, h2]
  | some s =>
    by_cases hs : setDiscard cid s = []
    · by_cases h2 : t2 = tid
      · subst h2
        simp [unsubscribe_from_task, h, hs, taskSubscribers, dictLookup_erase_self]
      · simp [unsubscribe_from_task, h, hs, taskSubscribers, h2,
          dictLookup_erase_ne tid t2 _ h2]
    · by_cases h2 : t2 = tid
      · subst h2
        simp [unsubscribe_from_task, h, hs, taskSubscribers, dictLookup_insert_self]
      · simp [unsubscribe_from_task, h, hs, taskSubscribers, h2,
          dictLookup_insert_ne tid t2 _ _ h2]

/-- CLAIM C10.  An inbound `task_complete` or `task_error` frame carrying a
`task_id` makes the handler unsubscribe the SENDING client from that task
(with no reply): the sender leaves that task's subscriber set, every other
client's membership in every task entry is unchanged, and the session index
is unchanged; a frame of those kinds without a `task_id` leaves the
registry unchanged. -/
theorem inbound_terminal_frame_unsubscribes (r : Registry) (client_id : String)
    (now : Int) (t : String) (dS : Option String) (tid : String) (mt : MsgType)
    (hp : parseMsgType t = some mt)
    (hk : mt = MsgType.taskComplete ∨ mt = MsgType.taskError) :
    handle_message r client_id now (Inbound.typed t (some tid) dS) =
      (unsubscribe_from_task r client_id tid, []) ∧
    client_id ∉ taskSubscribers (unsubscribe_from_task r client_id tid) tid ∧
    (∀ c t2, c ≠ client_id →
      (c ∈ taskSubscribers (unsubscribe_from_task r client_id tid) t2 ↔
        c ∈ taskSubscribers r t2)) ∧
    (unsubscribe_from_task r client_id tid).sessionSubscriptions =
      r.sessionSubscriptions ∧
    handle_message r client_id now (Inbound.typed t none dS) = (r, []) := by
  have ht : ¬(t = "") := by
    intro he
    subst he
    simp [parseMsgType] at hp
  refine ⟨?_, ?_, ?_, unsubscribe_sessions_unchanged r client_id tid, ?_⟩
  · rcases hk with rfl | rfl <;>
      simp [handle_message, ht, hp, dispatchHandler]
  · rw [taskSubscribers_unsubscribe]
    simp [not_mem_setDiscard_self]
  · intro c t2 hc
    rw [taskSubscribers_unsubscribe]
    by_cases h2 : t2 = tid
    · subst h2
      simp [mem_setDiscard, hc]
    · simp [h2]
  · rcases hk with rfl | rfl <;>
      simp [handle_message, ht, hp, dispatchHandler]

/-- Witness for C10 at a concrete registry with two subscribers of `"T"`. -/
theorem inbound_terminal_frame_unsubscribes_witness :
    parseMsgType "task_complete" = some MsgType.taskComplete ∧
    (MsgType.taskComplete = MsgType.taskComplete ∨
      MsgType.taskComplete = MsgType.taskError) ∧
    handle_message twoClientRegistry "a" 0
        (Inbound.typed "task_complete" (some "T") none) =
      (unsubscribe_from_task twoClientRegistry "a" "T", []) :=
  ⟨rfl, Or.inl rfl,
   (inbound_terminal_frame_unsubscribes twoClientRegistry "a" 0 "task_complete"
      none "T" MsgType.taskComplete rfl (Or.inl rfl)).1⟩

end Rehui
